import Mathlib

/-!
Verification of the robinclaw account-lifecycle and trading core.

The definitions below are a shallow embedding of the Python source of
the repository: `models.py` (ledger store), `robinclaw/trading.py` (exchange
gateway) and `robinclaw/web/app.py` (lifecycle / HTTP handlers).
Monetary quantities and prices are modelled as rationals, timestamps as
naturals, and the remote exchange as an explicit environment record whose
calls return `Except String` values: `Except.error` models a raised
exception in the underlying SDK call, and catching an exception in the
Python source corresponds to matching away the `.error` case here.
-/

deriving instance DecidableEq for Except

namespace Robinclaw

/-- Agent record, from the `Agent` dataclass in `models.py`.  `status` is a
plain string, as in the database ("pending_deposit", "active", "closed"). -/
structure Agent where
  id : String
  name : String
  wallet_address : String
  private_key_encrypted : String
  api_key_hash : String
  deposit_amount : ℚ
  deposit_tx : Option String
  created_at : Nat
  status : String
  closed_at : Option Nat := none
  final_equity : Option ℚ := none
  final_pnl : Option ℚ := none
  final_pnl_pct : Option ℚ := none
  withdrawal_tx : Option String := none
  withdrawal_address : Option String := none
deriving DecidableEq

/-- Trade record, from the `Trade` dataclass in `models.py`. -/
structure Trade where
  id : Nat
  agent_id : String
  symbol : String
  side : String
  size : ℚ
  price : ℚ
  realized_pnl : ℚ
  timestamp : Nat
deriving DecidableEq

/-- The agents table, as a list of rows. -/
abbrev AgentStore := List Agent

/-- Embedding of `create_agent` of `models.py`: inserts a new row. -/
def create_agent (store : AgentStore) (agent : Agent) : AgentStore :=
  store ++ [agent]

/-- Embedding of `get_agent` of `models.py`: `SELECT * FROM agents WHERE id = ?`, first row. -/
def get_agent (store : AgentStore) (agent_id : String) : Option Agent :=
  store.find? (fun a => a.id == agent_id)

/-- Embedding of `get_agent_by_name` of `models.py`. -/
def get_agent_by_name (store : AgentStore) (name : String) : Option Agent :=
  store.find? (fun a => a.name == name)

/-- Embedding of `get_agent_by_api_key_hash` of `models.py`. -/
def get_agent_by_api_key_hash (store : AgentStore) (api_key_hash : String) : Option Agent :=
  store.find? (fun a => a.api_key_hash == api_key_hash)

/-- The optional fields accepted as keyword arguments by
`update_agent_status` in `models.py`.  A `none` field models a keyword that
is absent or passed as Python `None`; the source skips those in the SQL SET
clause, leaving the column untouched. -/
structure StatusPatch where
  final_equity : Option ℚ := none
  final_pnl : Option ℚ := none
  final_pnl_pct : Option ℚ := none
  closed_at : Option Nat := none
  withdrawal_tx : Option String := none
deriving DecidableEq

/-- One column update of the partial-update contract: a provided value
overwrites, an absent one keeps the old column value. -/
def setField {α : Type} (new old : Option α) : Option α :=
  match new with
  | some v => some v
  | none => old

/-- Effect of the SQL UPDATE of `update_agent_status` on one matching row. -/
def applyPatch (a : Agent) (status : String) (p : StatusPatch) : Agent :=
  { a with
    status := status
    final_equity := setField p.final_equity a.final_equity
    final_pnl := setField p.final_pnl a.final_pnl
    final_pnl_pct := setField p.final_pnl_pct a.final_pnl_pct
    closed_at := setField p.closed_at a.closed_at
    withdrawal_tx := setField p.withdrawal_tx a.withdrawal_tx }

/-- Embedding of `update_agent_status` of `models.py`:
`UPDATE agents SET status = ?, ... WHERE id = ?`.  Rows whose id does not
match are untouched; a missing id simply updates zero rows and reports
nothing (the Python function returns `None` unconditionally). -/
def update_agent_status (store : AgentStore) (agent_id status : String)
    (p : StatusPatch) : AgentStore :=
  store.map (fun a => if a.id == agent_id then applyPatch a status p else a)

/-- SQL aggregate `SUM(...)`: `NULL` (here `none`) on an empty row set. -/
def sqlSum (xs : List ℚ) : Option ℚ :=
  if xs.isEmpty then none else some xs.sum

/-- The Python idiom `x or d` applied to a nullable SQL value: `None` and `0` are
falsy and give the default. -/
def pyOr (x : Option ℚ) (d : ℚ) : ℚ :=
  match x with
  | none => d
  | some v => if v = 0 then d else v

/-- Result dictionary of `get_agent_stats` in `models.py`. -/
structure AgentStats where
  total_trades : Nat
  winning_trades : ℚ
  win_rate : ℚ
  total_pnl : ℚ
deriving DecidableEq

/-- Embedding of `get_agent_stats` of `models.py`: one aggregate query over the trades of
the agent — `COUNT(*)`, `SUM(CASE WHEN realized_pnl > 0 THEN 1 ELSE 0 END)`,
`SUM(realized_pnl)` — each coalesced with the Python `or 0`, and
`win_rate = wins / total * 100` guarded by `total > 0`. -/
def get_agent_stats (trades : List Trade) (agent_id : String) : AgentStats :=
  let rows := trades.filter (fun t => t.agent_id == agent_id)
  let total := rows.length
  let wins := pyOr (sqlSum (rows.map (fun t => if 0 < t.realized_pnl then 1 else 0))) 0
  let pnl := pyOr (sqlSum (rows.map (fun t => t.realized_pnl))) 0
  { total_trades := total
    winning_trades := wins
    win_rate := if 0 < total then wins / (total : ℚ) * 100 else 0
    total_pnl := pnl }

/-! ## Exchange gateway (`robinclaw/trading.py`) -/

/-- Raw position entry of the Hyperliquid `user_state` response, as read by
`AgentTrader.get_positions`. -/
structure RawPosition where
  coin : String
  szi : ℚ
  entryPx : ℚ
  positionValue : ℚ
  unrealizedPnl : ℚ
  leverage : Nat
deriving DecidableEq

/-- Raw `user_state` response: `assetPositions` plus the `marginSummary`
and `withdrawable` fields read by `get_balance`. -/
structure RawUserState where
  assetPositions : List RawPosition
  accountValue : ℚ
  totalMarginUsed : ℚ
  withdrawable : ℚ
deriving DecidableEq

/-- Raw open-order entry of the `open_orders` info response. -/
structure RawOrder where
  oid : Nat
  coin : String
  side : String
  sz : ℚ
  limitPx : ℚ
  orderType : String
deriving DecidableEq

/-- The order payload `AgentTrader` passes to `exchange.order`:
coin, side, size, limit price, time-in-force ("Ioc" for the emulated
market order, "Gtc" for a limit order) and the reduce-only flag. -/
structure OrderRequest where
  coin : String
  is_buy : Bool
  sz : ℚ
  limit_px : ℚ
  tif : String
  reduce_only : Bool
deriving DecidableEq

/-- One entry of the `statuses` array in an "ok" exchange order response. -/
inductive ApiOrderStatus where
  | filled (oid : String) (totalSz : ℚ) (avgPx : ℚ)
  | resting (oid : String)
  | other (desc : String)
deriving DecidableEq

/-- Exchange order response: `status == "ok"` with a statuses array, or a
non-ok response (`err`, whose string abstracts the raw response repr). -/
inductive OrderApiResult where
  | ok (statuses : List ApiOrderStatus)
  | err (desc : String)
deriving DecidableEq

/-- Tag used to abstract the Python interpolation of a raw status entry into
an error message. -/
def statusTag : ApiOrderStatus → String
  | .filled _ _ _ => "filled"
  | .resting _ => "resting"
  | .other desc => desc

/-- Abstraction of the f-string interpolation of the statuses list. -/
def statusesStr (l : List ApiOrderStatus) : String :=
  String.intercalate ", " (l.map statusTag)

/-- The remote exchange, as seen through the SDK calls `AgentTrader`
makes.  Each call returns `Except String`: `.error e` models the SDK call
raising an exception `e`.  The environment is deterministic: repeated
calls within one request see the same remote state. -/
structure ExchangeEnv where
  all_mids : Except String (List (String × ℚ))
  user_state : Except String RawUserState
  open_orders : Except String (List RawOrder)
  order : OrderRequest → Except String OrderApiResult
  cancel : String → Nat → Except String Bool
  update_leverage : ℤ → String → Bool → Except String Bool

/-- Embedding of `OrderResult` dataclass of `trading.py`. -/
structure OrderResult where
  success : Bool
  order_id : Option String := none
  message : String := ""
  filled_size : ℚ := 0
  avg_price : ℚ := 0
deriving DecidableEq

/-- Embedding of `PositionInfo` dataclass of `trading.py`. -/
structure PositionInfo where
  symbol : String
  size : ℚ
  entry_price : ℚ
  mark_price : ℚ
  unrealized_pnl : ℚ
  leverage : Nat
deriving DecidableEq

/-- Open-order dictionary produced by `AgentTrader.get_open_orders`. -/
structure OpenOrder where
  order_id : Nat
  symbol : String
  side : String
  size : ℚ
  price : ℚ
  order_type : String
deriving DecidableEq

/-- Embedding of `AgentTrader.get_balance`: reads `marginSummary.accountValue`,
`marginSummary.totalMarginUsed` and `withdrawable` from `user_state`.
The `info.user_state` call is not wrapped in try/except in the source, so
an error propagates. -/
structure BalanceInfo where
  account_value : ℚ
  total_margin_used : ℚ
  withdrawable : ℚ
deriving DecidableEq

def get_balance (env : ExchangeEnv) : Except String BalanceInfo :=
  match env.user_state with
  | .error e => .error e
  | .ok st => .ok ⟨st.accountValue, st.totalMarginUsed, st.withdrawable⟩

/-- The position list `get_positions` builds from a raw user state:
entries with `szi == 0` are skipped, `mark_price` is
`positionValue / abs(size)`. -/
def positionsOf (st : RawUserState) : List PositionInfo :=
  st.assetPositions.filterMap (fun p =>
    if p.szi = 0 then none
    else some ⟨p.coin, p.szi, p.entryPx, p.positionValue / |p.szi|, p.unrealizedPnl, p.leverage⟩)

/-- Embedding of `AgentTrader.get_positions`: the `info.user_state` call is unguarded,
so an SDK error propagates to the caller. -/
def get_positions (env : ExchangeEnv) : Except String (List PositionInfo) :=
  match env.user_state with
  | .error e => .error e
  | .ok st => .ok (positionsOf st)

/-- Embedding of `AgentTrader.get_open_orders`: unguarded `info.open_orders` call,
translating side "B" to "buy" and anything else to "sell". -/
def get_open_orders (env : ExchangeEnv) : Except String (List OpenOrder) :=
  match env.open_orders with
  | .error e => .error e
  | .ok orders =>
      .ok (orders.map (fun o =>
        ⟨o.oid, o.coin, if o.side == "B" then "buy" else "sell", o.sz, o.limitPx, o.orderType⟩))

/-- Dictionary membership test `symbol in all_mids` plus the lookup
`all_mids[symbol]`. -/
def lookupMid (mids : List (String × ℚ)) (symbol : String) : Option ℚ :=
  (mids.find? (fun kv => kv.1 == symbol)).map (fun kv => kv.2)

/-- Round-half-to-even on a rational, modelling the Python builtin `round`. -/
def roundHalfToEven (q : ℚ) : ℤ :=
  let f : ℤ := ⌊q⌋
  let frac : ℚ := q - f
  if frac < 1/2 then f
  else if 1/2 < frac then f + 1
  else if f % 2 = 0 then f else f + 1

/-- The Python call `round(x, 2)`: round to two decimal places. -/
def round2 (q : ℚ) : ℚ :=
  (roundHalfToEven (q * 100) : ℚ) / 100

/-- Embedding of `AgentTrader.market_order`.  The whole body is wrapped in try/except
in the source, so every SDK error is converted into a failed
`OrderResult`; alongside the result we return the order request actually
submitted to the exchange (`none` when no order call was made). -/
def market_order (env : ExchangeEnv) (symbol side : String) (size slippage : ℚ) :
    OrderResult × Option OrderRequest :=
  let is_buy := side == "buy"
  match env.all_mids with
  | .error e => ({ success := false, message := "Error: " ++ e }, none)
  | .ok all_mids =>
    match lookupMid all_mids symbol with
    | none => ({ success := false, message := "Unknown symbol: " ++ symbol }, none)
    | some mid_price =>
      let limit_price :=
        round2 (if is_buy then mid_price * (1 + slippage) else mid_price * (1 - slippage))
      let req : OrderRequest := ⟨symbol, is_buy, size, limit_price, "Ioc", false⟩
      match env.order req with
      | .error e => ({ success := false, message := "Error: " ++ e }, some req)
      | .ok (.err desc) => ({ success := false, message := "Order failed: " ++ desc }, some req)
      | .ok (.ok statuses) =>
        match statuses.head? with
        | some (.filled oid totalSz avgPx) =>
            ({ success := true, order_id := some oid, message := "Order filled",
               filled_size := totalSz, avg_price := avgPx }, some req)
        | some (.resting oid) =>
            ({ success := true, order_id := some oid,
               message := "Order placed (partial fill or resting)" }, some req)
        | _ =>
            ({ success := false, message := "Order not filled: " ++ statusesStr statuses },
             some req)

/-- Embedding of `AgentTrader.limit_order`: good-till-cancelled, optional reduce-only;
the body is wrapped in try/except in the source. -/
def limit_order (env : ExchangeEnv) (symbol side : String) (size price : ℚ)
    (reduce_only : Bool) : OrderResult × Option OrderRequest :=
  let is_buy := side == "buy"
  let req : OrderRequest := ⟨symbol, is_buy, size, price, "Gtc", reduce_only⟩
  match env.order req with
  | .error e => ({ success := false, message := "Error: " ++ e }, some req)
  | .ok (.err desc) => ({ success := false, message := "Order failed: " ++ desc }, some req)
  | .ok (.ok statuses) =>
    match statuses.head? with
    | some (.resting oid) =>
        ({ success := true, order_id := some oid, message := "Limit order placed" }, some req)
    | some (.filled oid totalSz avgPx) =>
        ({ success := true, order_id := some oid, message := "Order filled immediately",
           filled_size := totalSz, avg_price := avgPx }, some req)
    | _ =>
        ({ success := false, message := "Unexpected response: " ++ statusesStr statuses },
         some req)

/-- Embedding of `AgentTrader.close_position`: looks up the current position (via the
unguarded `get_positions` — an SDK error there propagates, hence the
`Except` return type), returns a failed `OrderResult` when there is no
position, and otherwise flattens with a market order on the opposite
side. -/
def close_position (env : ExchangeEnv) (symbol : String) (slippage : ℚ) :
    Except String (OrderResult × Option OrderRequest) :=
  match get_positions env with
  | .error e => .error e
  | .ok positions =>
    match positions.find? (fun p => p.symbol == symbol) with
    | none => .ok ({ success := false, message := "No position in " ++ symbol }, none)
    | some position =>
      let side := if 0 < position.size then "sell" else "buy"
      .ok (market_order env symbol side |position.size| slippage)

/-- Embedding of `AgentTrader.cancel_order`: try/except around `exchange.cancel`,
returning whether the response status was "ok" and `false` on any
exception. -/
def cancel_order (env : ExchangeEnv) (symbol : String) (oid : Nat) : Bool :=
  match env.cancel symbol oid with
  | .ok b => b
  | .error _ => false

/-- Embedding of `AgentTrader.cancel_all_orders`: the `get_open_orders` call is
unguarded (an SDK error propagates); individual cancellations are
best-effort and only successful ones are counted. -/
def cancel_all_orders (env : ExchangeEnv) (symbol : Option String) : Except String Nat :=
  match get_open_orders env with
  | .error e => .error e
  | .ok orders =>
    let filtered : List OpenOrder := match symbol with
      | some s => orders.filter (fun o => o.symbol == s)
      | none => orders
    .ok (filtered.foldl (fun cancelled o =>
      if cancel_order env o.symbol o.order_id then cancelled + 1 else cancelled) 0)

/-- Embedding of `AgentTrader.set_leverage`: try/except around
`exchange.update_leverage`, `false` on any exception. -/
def set_leverage (env : ExchangeEnv) (symbol : String) (leverage : ℤ) (is_cross : Bool) : Bool :=
  match env.update_leverage leverage symbol is_cross with
  | .ok b => b
  | .error _ => false

/-! ## Web handlers (`robinclaw/web/app.py`)

Authentication upstream of each handler hashes the bearer key and checks
the "rc_" prefix; the handlers below take the already-computed
`api_key_hash` and model `get_agent_from_api_key` from the store lookup
on.  A raised `HTTPException(code, detail)` is modelled by an `httpError`
response constructor; an exception propagating out of a handler (FastAPI
turns it into a 500) is modelled by `Except.error`. -/

/-- Python truthiness of an optional string (`None` and `""` are falsy). -/
def truthyStr : Option String → Bool
  | none => false
  | some s => !s.isEmpty

/-- Python truthiness of an optional number (`None` and `0` are falsy). -/
def truthyQ : Option ℚ → Bool
  | none => false
  | some q => !(q == 0)

/-- JSON body of `POST /api/order`; `order_type` is `body.get("type", "market")`. -/
structure OrderBody where
  symbol : Option String := none
  side : Option String := none
  size : Option ℚ := none
  price : Option ℚ := none
  order_type : String := "market"
deriving DecidableEq

/-- Response of the `POST /api/order` handler. -/
inductive PlaceOrderResponse where
  | httpError (code : Nat) (detail : String)
  | ok (order_id : Option String) (message : String) (filled_size avg_price : ℚ)
  | error (message : String)
deriving DecidableEq

/-- Embedding of `api_place_order` of `app.py`: authenticate, reject non-active agents,
validate the body, then forward to `market_order` or `limit_order`
(market when the type says so or no price was given). -/
def api_place_order (env : ExchangeEnv) (store : AgentStore) (api_key_hash : String)
    (body : OrderBody) : PlaceOrderResponse :=
  match get_agent_by_api_key_hash store api_key_hash with
  | none => .httpError 401 "Invalid API key"
  | some agent =>
    if agent.status ≠ "active" then
      .httpError 400 ("Agent is " ++ agent.status ++ ", not active. Cannot trade.")
    else if truthyStr body.symbol = false ∨ truthyStr body.side = false ∨
        truthyQ body.size = false then
      .httpError 400 "Missing required fields: symbol, side, size"
    else if body.side ≠ some "buy" ∧ body.side ≠ some "sell" then
      .httpError 400 "side must be \x27buy\x27 or \x27sell\x27"
    else
      let symbol := body.symbol.getD ""
      let side := body.side.getD ""
      let size := body.size.getD 0
      let result :=
        if body.order_type == "market" ∨ body.price = none then
          (market_order env symbol side size (5/100)).1
        else
          (limit_order env symbol side size (body.price.getD 0) false).1
      if result.success then
        .ok result.order_id result.message result.filled_size result.avg_price
      else
        .error result.message

/-- JSON body of `POST /api/close`. -/
structure CloseBody where
  symbol : Option String := none
deriving DecidableEq

/-- Response of the `POST /api/close` handler. -/
inductive ClosePositionResponse where
  | httpError (code : Nat) (detail : String)
  | ok (message symbol : String) (filled_size avg_price : ℚ)
  | error (message symbol : String)
deriving DecidableEq

/-- Embedding of `api_close_position` of `app.py`: authenticate, reject non-active
agents, then call the gateway operation `close_position` (whose position lookup
may propagate an exception — hence `Except`). -/
def api_close_position (env : ExchangeEnv) (store : AgentStore) (api_key_hash : String)
    (body : CloseBody) : Except String ClosePositionResponse :=
  match get_agent_by_api_key_hash store api_key_hash with
  | none => .ok (.httpError 401 "Invalid API key")
  | some agent =>
    if agent.status ≠ "active" then
      .ok (.httpError 400 ("Agent is " ++ agent.status ++ ", not active."))
    else if truthyStr body.symbol = false then
      .ok (.httpError 400 "Missing required field: symbol")
    else
      let symbol := body.symbol.getD ""
      match close_position env symbol (5/100) with
      | .error e => .error e
      | .ok (result, _) =>
        if result.success then
          .ok (.ok result.message symbol result.filled_size result.avg_price)
        else
          .ok (.error result.message symbol)

/-- JSON body of `POST /api/leverage`; `margin_type` defaults to "cross". -/
structure LeverageBody where
  symbol : Option String := none
  leverage : Option ℤ := none
  margin_type : Option String := none
deriving DecidableEq

/-- Response of the `POST /api/leverage` handler. -/
inductive LeverageResponse where
  | httpError (code : Nat) (detail : String)
  | ok (message symbol : String) (leverage : ℤ) (margin_type : String)
  | error (message symbol : String) (leverage : ℤ)
deriving DecidableEq

/-- Embedding of `api_set_leverage` of `app.py`.  Note: unlike the order and close
handlers, the source performs no `agent.status` check here — the request of any
authenticated agent is forwarded to the gateway. -/
def api_set_leverage (env : ExchangeEnv) (store : AgentStore) (api_key_hash : String)
    (body : LeverageBody) : LeverageResponse :=
  match get_agent_by_api_key_hash store api_key_hash with
  | none => .httpError 401 "Invalid API key"
  | some _agent =>
    if truthyStr body.symbol = false ∨ body.leverage = none then
      .httpError 400 "Missing required fields: symbol, leverage"
    else
      let margin_type := body.margin_type.getD "cross"
      if margin_type ≠ "cross" ∧ margin_type ≠ "isolated" then
        .httpError 400 "margin_type must be \x27cross\x27 or \x27isolated\x27"
      else
        let symbol := body.symbol.getD ""
        let leverage := body.leverage.getD 0
        let is_cross := margin_type == "cross"
        if set_leverage env symbol leverage is_cross then
          .ok ("Leverage set to " ++ toString leverage ++ "x (" ++ margin_type ++ ")")
            symbol leverage margin_type
        else
          .error "Failed to set leverage" symbol leverage

/-- One entry of `results["positions_closed"]` in `api_close_account`. -/
structure ClosedPosEntry where
  symbol : String
  size : ℚ
  pnl : ℚ
deriving DecidableEq

/-- The `results["withdrawal"]` note of `api_close_account`. -/
structure WithdrawalInfo where
  address : Option String
  account_value : ℚ
  withdrawable : ℚ
  note : String
deriving DecidableEq

/-- The `results` dictionary of `api_close_account`. -/
structure CloseAccountResults where
  positions_closed : List ClosedPosEntry
  orders_cancelled : Nat
  withdrawal : Option WithdrawalInfo
  errors : List String
deriving DecidableEq

/-- The JSON body returned by a completed `api_close_account` run. -/
structure CloseAccountResponse where
  status : String
  message : String
  final_balance : ℚ
  final_pnl : ℚ
  results : CloseAccountResults
deriving DecidableEq

/-- Outcome of the close-account handler: an `HTTPException` or the
success/partial JSON response. -/
inductive CloseAccountOutcome where
  | httpError (code : Nat) (detail : String)
  | success (r : CloseAccountResponse)
deriving DecidableEq

/-- One call to `update_agent_status` recorded by the handler model. -/
structure LedgerWrite where
  agent_id : String
  status : String
  patch : StatusPatch
deriving DecidableEq

/-- Full result of a close-account request: the HTTP-level response (or a
propagated exception), the agents table afterwards, and the list of
ledger writes performed.  Side effects performed before a propagated
exception are retained, as in the Python source. -/
structure HandlerResult where
  response : Except String CloseAccountOutcome
  store : AgentStore
  writes : List LedgerWrite
deriving DecidableEq

/-- Step 1 of the closure sequence: the `for pos in positions` loop of
`api_close_account`, attempting `close_position` for each nonzero
position, recording successes and error strings, and propagating any
exception raised by `close_position` itself. -/
def close_positions_step (env : ExchangeEnv) :
    List PositionInfo → List ClosedPosEntry → List String →
    Except String (List ClosedPosEntry × List String)
  | [], closed, errs => .ok (closed, errs)
  | pos :: rest, closed, errs =>
    if pos.size ≠ 0 then
      match close_position env pos.symbol (5/100) with
      | .error e => .error e
      | .ok (r, _) =>
        if r.success then
          close_positions_step env rest (closed ++ [⟨pos.symbol, pos.size, pos.unrealized_pnl⟩]) errs
        else
          close_positions_step env rest closed
            (errs ++ ["Failed to close " ++ pos.symbol ++ ": " ++ r.message])
    else close_positions_step env rest closed errs

/-- Embedding of `api_close_account` of `app.py`: authenticate; reject already-closed
agents with a 400 before any exchange call or ledger write; then run the
closure sequence (close positions, cancel orders, fetch balance, compute
final P&L, one `update_agent_status` write) and report "ok" or "partial".
`now` stands for `datetime.now(timezone.utc)`. -/
def api_close_account (env : ExchangeEnv) (store : AgentStore) (api_key_hash : String)
    (now : Nat) : HandlerResult :=
  match get_agent_by_api_key_hash store api_key_hash with
  | none => ⟨.ok (.httpError 401 "Invalid API key"), store, []⟩
  | some agent =>
    if agent.status = "closed" then
      ⟨.ok (.httpError 400 "Account already closed."), store, []⟩
    else
      match get_positions env with
      | .error e => ⟨.error e, store, []⟩
      | .ok positions =>
        match close_positions_step env positions [] [] with
        | .error e => ⟨.error e, store, []⟩
        | .ok (positions_closed, errors) =>
          match cancel_all_orders env none with
          | .error e => ⟨.error e, store, []⟩
          | .ok cancelled_count =>
            match get_balance env with
            | .error e => ⟨.error e, store, []⟩
            | .ok balance_info =>
              let final_balance := balance_info.account_value
              let withdrawal : WithdrawalInfo :=
                ⟨agent.withdrawal_address, final_balance, balance_info.withdrawable,
                 "Manual withdrawal may be required via Hyperliquid UI"⟩
              let deposit := if agent.deposit_amount = 0 then 0 else agent.deposit_amount
              let final_pnl := final_balance - deposit
              let final_pnl_pct := if 0 < deposit then final_pnl / deposit * 100 else 0
              let patch : StatusPatch :=
                { final_equity := some final_balance
                  final_pnl := some final_pnl
                  final_pnl_pct := some final_pnl_pct
                  closed_at := some now }
              let store2 := update_agent_status store agent.id "closed" patch
              let results : CloseAccountResults :=
                ⟨positions_closed, cancelled_count, some withdrawal, errors⟩
              if errors.isEmpty then
                ⟨.ok (.success ⟨"ok", "Account closed successfully",
                    final_balance, final_pnl, results⟩),
                 store2, [⟨agent.id, "closed", patch⟩]⟩
              else
                ⟨.ok (.success ⟨"partial", "Account closed with some errors",
                    final_balance, final_pnl, results⟩),
                 store2, [⟨agent.id, "closed", patch⟩]⟩

/-- Form input of `POST /register`. -/
structure RegisterForm where
  name : String
  deposit_amount : ℚ
  withdrawal_address : String
deriving DecidableEq

/-- Material generated inside the registration handler: uuid, fresh EVM
wallet, private key and the hash of the issued bearer key. -/
structure GeneratedMaterial where
  id : String
  wallet_address : String
  private_key : String
  api_key_hash : String
deriving DecidableEq

/-- Outcome of the registration handler: a form error re-render or the
created agent. -/
inductive RegisterResult where
  | error (msg : String)
  | registered (agent : Agent)
deriving DecidableEq

/-- Embedding of `register_agent` of `app.py`: validates name length (3-32) and
deposit bounds (10-100), rejects duplicate names, then persists a new
agent with status "pending_deposit". -/
def register_agent (store : AgentStore) (form : RegisterForm) (gen : GeneratedMaterial)
    (now : Nat) : RegisterResult × AgentStore :=
  if form.name.length < 3 ∨ 32 < form.name.length then
    (.error "Agent name must be 3-32 characters.", store)
  else if form.deposit_amount < 10 ∨ 100 < form.deposit_amount then
    (.error "Deposit must be between $10 and $100.", store)
  else if (get_agent_by_name store form.name).isSome then
    (.error ("Agent name \x27" ++ form.name ++ "\x27 is already taken."), store)
  else
    let agent : Agent :=
      { id := gen.id
        name := form.name
        wallet_address := gen.wallet_address
        private_key_encrypted := gen.private_key
        api_key_hash := gen.api_key_hash
        deposit_amount := form.deposit_amount
        deposit_tx := none
        created_at := now
        status := "pending_deposit"
        withdrawal_address := some form.withdrawal_address }
    (.registered agent, create_agent store agent)

/-! ## Concrete instances used to exercise the model -/

/-- The status-patch values `api_close_account` computes for an agent from
a fetched user state: final equity, final P&L (absolute and percentage,
with the `deposit > 0` guard) and the closing timestamp. -/
def closurePatch (agent : Agent) (us : RawUserState) (now : Nat) : StatusPatch :=
  let deposit := if agent.deposit_amount = 0 then 0 else agent.deposit_amount
  { final_equity := some us.accountValue
    final_pnl := some (us.accountValue - deposit)
    final_pnl_pct := some (if 0 < deposit then (us.accountValue - deposit) / deposit * 100 else 0)
    closed_at := some now }

/-- An active agent with deposit 50 and API-key hash "k1". -/
def agentActive : Agent :=
  { id := "a1", name := "alpha", wallet_address := "w1", private_key_encrypted := "p1"
    api_key_hash := "k1", deposit_amount := 50, deposit_tx := none, created_at := 0
    status := "active" }

/-- An agent still awaiting its deposit, API-key hash "k2". -/
def agentPending : Agent :=
  { id := "a2", name := "beta", wallet_address := "w2", private_key_encrypted := "p2"
    api_key_hash := "k2", deposit_amount := 50, deposit_tx := none, created_at := 0
    status := "pending_deposit" }

/-- An already-closed agent, API-key hash "k3". -/
def agentClosed : Agent :=
  { id := "a3", name := "gamma", wallet_address := "w3", private_key_encrypted := "p3"
    api_key_hash := "k3", deposit_amount := 50, deposit_tx := none, created_at := 0
    status := "closed", closed_at := some 1, final_equity := some 60
    final_pnl := some 10, final_pnl_pct := some 20 }

/-- A flat user state: no positions, account value 100. -/
def benignUserState : RawUserState := ⟨[], 100, 0, 100⟩

/-- A benign exchange: info calls succeed (no positions, no orders),
mutation calls raise. -/
def benignEnv : ExchangeEnv :=
  { all_mids := .ok []
    user_state := .ok benignUserState
    open_orders := .ok []
    order := fun _ => .error "offline"
    cancel := fun _ _ => .error "offline"
    update_leverage := fun _ _ _ => .error "offline" }

/-- An exchange whose `user_state` info call raises "boom". -/
def envUserStateFault : ExchangeEnv := { benignEnv with user_state := .error "boom" }

/-- An exchange whose `open_orders` info call raises "boom". -/
def envOpenOrdersFault : ExchangeEnv := { benignEnv with open_orders := .error "boom" }

/-- An exchange whose `all_mids` info call raises "offline". -/
def envMidsFault : ExchangeEnv := { benignEnv with all_mids := .error "offline" }

/-- An exchange that accepts leverage updates. -/
def envLeverageOk : ExchangeEnv := { benignEnv with update_leverage := fun _ _ _ => .ok true }

/-- An exchange quoting a BTC mid price of 0.333 and accepting orders with
an empty statuses array. -/
def envMidBTC : ExchangeEnv :=
  { benignEnv with all_mids := .ok [("BTC", 333/1000)], order := fun _ => .ok (.ok []) }

/-! ## Helper lemmas -/

/-- Coalescing a SQL SUM with the Python `or 0` yields the plain sum. -/
lemma pyOr_sqlSum (l : List ℚ) : pyOr (sqlSum l) 0 = l.sum := by
  cases l with
  | nil => rfl
  | cons a t =>
      simp only [pyOr, sqlSum, List.isEmpty_cons, Bool.false_eq_true, if_false]
      split <;> simp_all

/-- Summing 0/1 indicators counts the elements satisfying the predicate. -/
lemma indicator_sum (p : Trade → Prop) [DecidablePred p] (l : List Trade) :
    (l.map (fun t => if p t then (1 : ℚ) else 0)).sum
      = ((l.countP (fun t => decide (p t))) : ℚ) := by
  induction l with
  | nil => simp
  | cons a t ih =>
      by_cases h : p a
      · simp [List.countP_cons, h, ih]
        ring
      · simp [List.countP_cons, h, ih]

/-- When the user-state call succeeds, `close_position` cannot propagate
an exception. -/
lemma close_position_ok (env : ExchangeEnv) (us : RawUserState)
    (hus : env.user_state = Except.ok us) (symbol : String) (sl : ℚ) :
    ∃ out, close_position env symbol sl = Except.ok out := by
  unfold close_position get_positions
  rw [hus]
  dsimp only
  split
  · exact ⟨_, rfl⟩
  · exact ⟨_, rfl⟩

/-- When the user-state call succeeds, the position-closing loop of
`api_close_account` cannot propagate an exception. -/
lemma close_positions_step_ok (env : ExchangeEnv) (us : RawUserState)
    (hus : env.user_state = Except.ok us) :
    ∀ (ps : List PositionInfo) (closed : List ClosedPosEntry) (errs : List String),
      ∃ out, close_positions_step env ps closed errs = Except.ok out := by
  intro ps
  induction ps with
  | nil => exact fun closed errs => ⟨_, rfl⟩
  | cons pos rest ih =>
      intro closed errs
      unfold close_positions_step
      by_cases hz : pos.size ≠ 0
      · rw [if_pos hz]
        obtain ⟨out, hcp⟩ := close_position_ok env us hus pos.symbol (5/100)
        rw [hcp]
        obtain ⟨r, q⟩ := out
        by_cases hs : r.success = true
        · simp only [hs, if_true]
          exact ih _ _
        · simp only [hs, Bool.false_eq_true, if_false]
          exact ih _ _
      · rw [if_neg hz]
        exact ih _ _

/-- When the open-orders call succeeds, `cancel_all_orders` cannot
propagate an exception. -/
lemma cancel_all_orders_ok (env : ExchangeEnv) (os : List RawOrder)
    (hoo : env.open_orders = Except.ok os) :
    ∃ n, cancel_all_orders env none = Except.ok n := by
  unfold cancel_all_orders get_open_orders
  rw [hoo]
  exact ⟨_, rfl⟩

/-- Full characterization of a close-account run on a not-yet-closed
agent when the exchange info calls (`user_state`, `open_orders`)
succeed: the response, the updated table and the single ledger write. -/
lemma close_account_run (env : ExchangeEnv) (store : AgentStore) (h : String) (now : Nat)
    (agent : Agent) (us : RawUserState) (os : List RawOrder)
    (hfind : get_agent_by_api_key_hash store h = some agent)
    (hst : agent.status ≠ "closed")
    (hus : env.user_state = Except.ok us)
    (hoo : env.open_orders = Except.ok os) :
    ∃ pc errs n,
      close_positions_step env (positionsOf us) [] [] = Except.ok (pc, errs) ∧
      api_close_account env store h now =
        ⟨Except.ok (CloseAccountOutcome.success
            { status := if errs.isEmpty then "ok" else "partial"
              message := if errs.isEmpty then "Account closed successfully"
                         else "Account closed with some errors"
              final_balance := us.accountValue
              final_pnl := us.accountValue -
                (if agent.deposit_amount = 0 then 0 else agent.deposit_amount)
              results := ⟨pc, n, some ⟨agent.withdrawal_address, us.accountValue, us.withdrawable,
                  "Manual withdrawal may be required via Hyperliquid UI"⟩, errs⟩ }),
         update_agent_status store agent.id "closed" (closurePatch agent us now),
         [⟨agent.id, "closed", closurePatch agent us now⟩]⟩ := by
  obtain ⟨out, hstep⟩ := close_positions_step_ok env us hus (positionsOf us) [] []
  obtain ⟨pc, errs⟩ := out
  obtain ⟨n, hn⟩ := cancel_all_orders_ok env os hoo
  refine ⟨pc, errs, n, hstep, ?_⟩
  have hgp : get_positions env = Except.ok (positionsOf us) := by
    unfold get_positions
    rw [hus]
  have hb : get_balance env = Except.ok ⟨us.accountValue, us.totalMarginUsed, us.withdrawable⟩ := by
    unfold get_balance
    rw [hus]
  unfold api_close_account
  rw [hfind]
  dsimp only
  rw [if_neg hst, hgp]
  dsimp only
  rw [hstep]
  dsimp only
  rw [hn]
  dsimp only
  rw [hb]
  dsimp only
  unfold closurePatch
  by_cases he : errs.isEmpty
  · simp only [he, if_true]
  · simp only [he, Bool.false_eq_true, if_false]

/-- The agents table after a close-account request is either untouched or
the result of the single "closed" status update. -/
lemma api_close_account_store_cases (env : ExchangeEnv) (store : AgentStore)
    (h : String) (now : Nat) :
    (api_close_account env store h now).store = store ∨
    ∃ (agent : Agent) (patch : StatusPatch), (api_close_account env store h now).store
        = update_agent_status store agent.id "closed" patch := by
  unfold api_close_account
  split
  · left; rfl
  · split
    · left; rfl
    · split
      · left; rfl
      · split
        · left; rfl
        · split
          · left; rfl
          · split
            · left; rfl
            · dsimp only
              split
              · right; exact ⟨_, _, rfl⟩
              · right; exact ⟨_, _, rfl⟩

/-- Rows of an `update_agent_status` result: each is an original row or a
row carrying the newly written status. -/
lemma mem_update_agent_status (store : AgentStore) (aid st : String) (p : StatusPatch)
    (a : Agent) (ha : a ∈ update_agent_status store aid st p) :
    a ∈ store ∨ a.status = st := by
  unfold update_agent_status at ha
  rw [List.mem_map] at ha
  obtain ⟨b, hb, hfb⟩ := ha
  by_cases hid : (b.id == aid) = true
  · right
    rw [if_pos hid] at hfb
    rw [← hfb]
    rfl
  · left
    rw [if_neg hid] at hfb
    rwa [hfb] at hb

/-! ## Claim theorems -/

/-- C1: a close-account request for an agent whose status is "closed" is
rejected with HTTP 400 "Account already closed." before any exchange call
(the result is the same for every exchange environment) and before any
ledger write (the agents table is returned unchanged and the write log is
empty), so the ledger row of the agent — status and all closure fields — is exactly
the same after the rejected call as before it. -/
theorem close_account_already_closed_reject (env : ExchangeEnv) (store : AgentStore)
    (h : String) (now : Nat) (agent : Agent)
    (hfind : get_agent_by_api_key_hash store h = some agent)
    (hclosed : agent.status = "closed") :
    api_close_account env store h now =
      ⟨Except.ok (CloseAccountOutcome.httpError 400 "Account already closed."), store, []⟩ := by
  unfold api_close_account
  rw [hfind]
  dsimp only
  rw [if_pos hclosed]

/-- Witness for C1 at a concrete closed agent. -/
theorem close_account_already_closed_reject_witness :
    api_close_account benignEnv [agentClosed] "k3" 5 =
      ⟨Except.ok (CloseAccountOutcome.httpError 400 "Account already closed."),
       [agentClosed], []⟩ :=
  close_account_already_closed_reject benignEnv [agentClosed] "k3" 5 agentClosed
    (by decide) (by decide)

/-- C10: `update_agent_status` on an id that matches no stored row
completes (it is a total function) and changes no row at all — the table
is returned exactly as it was, with no error distinguishing this case
from a successful update. -/
theorem update_agent_status_missing_id_noop (store : AgentStore) (aid st : String)
    (p : StatusPatch) :
    (∀ a ∈ store, a.id ≠ aid) → update_agent_status store aid st p = store := by
  induction store with
  | nil => intro _; rfl
  | cons a t ih =>
      intro hall
      have ha : (a.id == aid) = false :=
        beq_eq_false_iff_ne.mpr (hall a (List.mem_cons_self a t))
      have ht := ih (fun b hb => hall b (List.mem_cons_of_mem a hb))
      unfold update_agent_status at ht ⊢
      rw [List.map_cons, ha, ht]
      simp

/-- Witness for C10 at a concrete store and unknown id. -/
theorem update_agent_status_missing_id_noop_witness :
    update_agent_status [agentActive] "nope" "closed" {} = [agentActive] :=
  update_agent_status_missing_id_noop [agentActive] "nope" "closed" {} (by decide)

/-- C8: `get_agent_stats` returns the number of recorded trades, the
number of trades with strictly positive realized P&L (zero-P&L trades
count toward the total but not the wins), the win rate `w/N*100` guarded
to 0 when there are no trades, and the sum of all realized P&L values;
an agent with zero trades yields `{0, 0, 0, 0}`. -/
theorem get_agent_stats_spec (trades : List Trade) (aid : String) :
    (get_agent_stats trades aid).total_trades
        = (trades.filter (fun t => t.agent_id == aid)).length ∧
    (get_agent_stats trades aid).winning_trades
        = (((trades.filter (fun t => t.agent_id == aid)).countP
              (fun t => decide (0 < t.realized_pnl))) : ℚ) ∧
    (get_agent_stats trades aid).win_rate
        = (if 0 < (trades.filter (fun t => t.agent_id == aid)).length then
             (((trades.filter (fun t => t.agent_id == aid)).countP
                 (fun t => decide (0 < t.realized_pnl))) : ℚ)
               / ((trades.filter (fun t => t.agent_id == aid)).length : ℚ) * 100
           else 0) ∧
    (get_agent_stats trades aid).total_pnl
        = ((trades.filter (fun t => t.agent_id == aid)).map (fun t => t.realized_pnl)).sum ∧
    ((trades.filter (fun t => t.agent_id == aid)) = [] →
        get_agent_stats trades aid = ⟨0, 0, 0, 0⟩) := by
  have hw : pyOr (sqlSum ((trades.filter (fun t => t.agent_id == aid)).map
        (fun t => if 0 < t.realized_pnl then (1 : ℚ) else 0))) 0
      = (((trades.filter (fun t => t.agent_id == aid)).countP
          (fun t => decide (0 < t.realized_pnl))) : ℚ) := by
    rw [pyOr_sqlSum, indicator_sum (fun t => 0 < t.realized_pnl)]
  have hp : pyOr (sqlSum ((trades.filter (fun t => t.agent_id == aid)).map
        (fun t => t.realized_pnl))) 0
      = ((trades.filter (fun t => t.agent_id == aid)).map (fun t => t.realized_pnl)).sum :=
    pyOr_sqlSum _
  refine ⟨rfl, ?_, ?_, ?_, ?_⟩
  · exact hw
  · show (if 0 < (trades.filter (fun t => t.agent_id == aid)).length then _ else 0) = _
    rw [hw]
  · exact hp
  · intro hnil
    unfold get_agent_stats
    rw [hnil]
    rfl

/-- Witness for the zero-trades clause of C8 at a concrete empty trade list. -/
theorem get_agent_stats_spec_witness :
    get_agent_stats [] "a" = ⟨0, 0, 0, 0⟩ :=
  (get_agent_stats_spec [] "a").2.2.2.2 rfl

/-- C4 counterexample: close-account on an agent whose status is
"pending_deposit" is not rejected — it runs the closure sequence and
writes status "closed", so an operation moves an agent directly from
pending_deposit to closed, skipping active. -/
theorem pending_to_closed_cex :
    agentPending.status = "pending_deposit" ∧
    (api_close_account benignEnv [agentPending] "k2" 0).store.map (fun a => a.status)
        = ["closed"] ∧
    (api_close_account benignEnv [agentPending] "k2" 0).writes.length = 1 := by
  refine ⟨rfl, ?_, ?_⟩ <;> decide

/-- C4 (amended): statuses only move forward at the API level — a
close-account request on an already-closed agent leaves the table
untouched, any row a close-account request modifies has status "closed"
afterwards, and registration only appends a fresh agent with status
"pending_deposit" — but close-account accepts any non-closed status, so
the direct transition pending_deposit → closed is possible. -/
theorem status_transitions_forward :
    (∀ (env : ExchangeEnv) (store : AgentStore) (h : String) (now : Nat) (agent : Agent),
       get_agent_by_api_key_hash store h = some agent → agent.status = "closed" →
       (api_close_account env store h now).store = store) ∧
    (∀ (env : ExchangeEnv) (store : AgentStore) (h : String) (now : Nat) (a : Agent),
       a ∈ (api_close_account env store h now).store → a ∈ store ∨ a.status = "closed") ∧
    (∀ (store : AgentStore) (form : RegisterForm) (gen : GeneratedMaterial) (now : Nat),
       (register_agent store form gen now).2 = store ∨
       ∃ ag, (register_agent store form gen now).1 = RegisterResult.registered ag ∧
         (register_agent store form gen now).2 = store ++ [ag] ∧
         ag.status = "pending_deposit") := by
  refine ⟨?_, ?_, ?_⟩
  · intro env store h now agent hfind hclosed
    unfold api_close_account
    rw [hfind]
    dsimp only
    rw [if_pos hclosed]
  · intro env store h now a ha
    rcases api_close_account_store_cases env store h now with hc | ⟨agent, patch, hc⟩
    · left; rwa [hc] at ha
    · rw [hc] at ha
      exact mem_update_agent_status store agent.id "closed" patch a ha
  · intro store form gen now
    unfold register_agent
    split
    · left; rfl
    · split
      · left; rfl
      · split
        · left; rfl
        · right; exact ⟨_, rfl, rfl, rfl⟩

/-- Witness for the amended C4 statement at concrete inputs: the table with
one closed agent is untouched by close-account, the untouched row is
accounted for by the forward-only clause, and a concrete registration
yields a pending_deposit agent. -/
theorem status_transitions_forward_witness :
    (api_close_account benignEnv [agentClosed] "k3" 0).store = [agentClosed] ∧
    (agentClosed ∈ ([agentClosed] : AgentStore) ∨ agentClosed.status = "closed") ∧
    (((register_agent [] ⟨"delta", 20, "wd"⟩ ⟨"a4", "w4", "p4", "k4"⟩ 0).2 = [] ∨
      ∃ ag, (register_agent [] ⟨"delta", 20, "wd"⟩ ⟨"a4", "w4", "p4", "k4"⟩ 0).1
          = RegisterResult.registered ag ∧
        (register_agent [] ⟨"delta", 20, "wd"⟩ ⟨"a4", "w4", "p4", "k4"⟩ 0).2 = [] ++ [ag] ∧
        ag.status = "pending_deposit")) := by
  refine ⟨?_, ?_, ?_⟩
  · exact status_transitions_forward.1 benignEnv [agentClosed] "k3" 0 agentClosed
      (by decide) (by decide)
  · refine status_transitions_forward.2.1 benignEnv [agentClosed] "k3" 0 agentClosed ?_
    rw [status_transitions_forward.1 benignEnv [agentClosed] "k3" 0 agentClosed
      (by decide) (by decide)]
    exact List.mem_singleton.mpr rfl
  · exact status_transitions_forward.2.2 [] ⟨"delta", 20, "wd"⟩ ⟨"a4", "w4", "p4", "k4"⟩ 0

/-- C5 counterexample: when the exchange user-state call raises, the
gateway operation `close_position` propagates the fault to the caller instead of
returning a structured failed outcome. -/
theorem close_position_fault_cex :
    close_position envUserStateFault "BTC" (5/100) = Except.error "boom" := by
  decide

/-- C5 (amended): the gateway operations wrapped in try/except — market
order, limit order, cancel order and set leverage — convert any error of
the underlying exchange call into a structured outcome (a failed
`OrderResult` with the error message, or `false`), but the
position lookup of `close_position` is unguarded: an error raised by the user-state call
propagates to the caller. -/
theorem gateway_error_containment :
    (∀ (env : ExchangeEnv) (symbol side : String) (size slippage : ℚ) (e : String),
       env.all_mids = Except.error e →
       market_order env symbol side size slippage
         = ({ success := false, message := "Error: " ++ e }, none)) ∧
    (∀ (env : ExchangeEnv) (symbol side : String) (size price : ℚ) (ro : Bool) (e : String),
       env.order ⟨symbol, side == "buy", size, price, "Gtc", ro⟩ = Except.error e →
       limit_order env symbol side size price ro
         = ({ success := false, message := "Error: " ++ e },
            some ⟨symbol, side == "buy", size, price, "Gtc", ro⟩)) ∧
    (∀ (env : ExchangeEnv) (symbol : String) (oid : Nat) (e : String),
       env.cancel symbol oid = Except.error e → cancel_order env symbol oid = false) ∧
    (∀ (env : ExchangeEnv) (symbol : String) (lev : ℤ) (c : Bool) (e : String),
       env.update_leverage lev symbol c = Except.error e →
       set_leverage env symbol lev c = false) ∧
    (∀ (env : ExchangeEnv) (symbol : String) (sl : ℚ) (e : String),
       env.user_state = Except.error e → close_position env symbol sl = Except.error e) := by
  refine ⟨?_, ?_, ?_, ?_, ?_⟩
  · intro env symbol side size slippage e hm
    unfold market_order
    rw [hm]
  · intro env symbol side size price ro e ho
    unfold limit_order
    dsimp only
    rw [ho]
  · intro env symbol oid e hc
    unfold cancel_order
    rw [hc]
  · intro env symbol lev c e hl
    unfold set_leverage
    rw [hl]
  · intro env symbol sl e hus
    unfold close_position get_positions
    rw [hus]

/-- Witness for the amended C5 statement: a concrete raising exchange gives
a failed market-order outcome, a `false` cancel, and a propagated
close-position fault. -/
theorem gateway_error_containment_witness :
    market_order envMidsFault "ETH" "buy" 1 (5/100)
        = ({ success := false, message := "Error: offline" }, none) ∧
    close_position envUserStateFault "ETH" (5/100) = Except.error "boom" := by
  constructor
  · exact gateway_error_containment.1 envMidsFault "ETH" "buy" 1 (5/100) "offline" rfl
  · exact gateway_error_containment.2.2.2.2 envUserStateFault "ETH" (5/100) "boom" rfl

/-- C6 counterexample: closing a position for a symbol with no position
returns the failure outcome `success = false` with message
"No position in BTC" — the error shape, not a non-error no-op (the web
layer maps `success = false` to a `"status": "error"` response). -/
theorem close_position_flat_cex :
    close_position benignEnv "BTC" (5/100)
      = Except.ok
          ({ success := false, order_id := none, message := "No position in BTC",
             filled_size := 0, avg_price := 0 },
           none) := by
  decide

/-- C6 (amended): for a symbol with no position (including positions of
size 0, which the position fetch filters out), `close_position` returns a
failed outcome — `success = false` with message "No position in {symbol}"
— and for a symbol with a nonzero position of size s it submits a market
order on the opposite side (sell if long, buy if short) of size `|s|`. -/
theorem close_position_cases (env : ExchangeEnv) (us : RawUserState) (symbol : String)
    (sl : ℚ) (hus : env.user_state = Except.ok us) :
    ((positionsOf us).find? (fun p => p.symbol == symbol) = none →
       close_position env symbol sl
         = Except.ok ({ success := false, message := "No position in " ++ symbol }, none)) ∧
    (∀ p, (positionsOf us).find? (fun p => p.symbol == symbol) = some p →
       close_position env symbol sl
         = Except.ok (market_order env symbol
             (if 0 < p.size then "sell" else "buy") |p.size| sl)) := by
  constructor
  · intro hnone
    unfold close_position get_positions
    rw [hus]
    dsimp only
    rw [hnone]
  · intro p hp
    unfold close_position get_positions
    rw [hus]
    dsimp only
    rw [hp]

/-- Witness for the amended C6 statement: under a flat user state the
lookup misses and the failed outcome is returned. -/
theorem close_position_cases_witness :
    close_position benignEnv "ETH" (5/100)
      = Except.ok ({ success := false, message := "No position in ETH" }, none) :=
  (close_position_cases benignEnv benignUserState "ETH" (5/100) rfl).1 rfl

/-- C7 counterexample: a set-leverage request on behalf of an agent whose
status is "closed" is not rejected — the handler forwards it to the
exchange gateway and reports success, so the trading request of a non-active agent reaches the Exchange Gateway. -/
theorem leverage_no_status_gate_cex :
    agentClosed.status = "closed" ∧
    api_set_leverage envLeverageOk [agentClosed] "k3"
        { symbol := some "ETH", leverage := some 10 }
      = LeverageResponse.ok "Leverage set to 10x (cross)" "ETH" 10 "cross" := by
  refine ⟨rfl, ?_⟩
  decide

/-- C7 (amended): order and close-position requests by an authenticated
agent whose status is not "active" are rejected with HTTP 400 naming the
current status, before any exchange call; the set-leverage handler,
however, performs no status check and forwards the
valid request of any authenticated agent to the gateway (and the API has no cancel-order route). -/
theorem trading_status_gate (env : ExchangeEnv) (store : AgentStore) (h : String)
    (agent : Agent) (body : OrderBody) (cbody : CloseBody) (lbody : LeverageBody) (lev : ℤ)
    (hfind : get_agent_by_api_key_hash store h = some agent)
    (hst : agent.status ≠ "active") :
    api_place_order env store h body
      = PlaceOrderResponse.httpError 400
          ("Agent is " ++ agent.status ++ ", not active. Cannot trade.") ∧
    api_close_position env store h cbody
      = Except.ok (ClosePositionResponse.httpError 400
          ("Agent is " ++ agent.status ++ ", not active.")) ∧
    (truthyStr lbody.symbol = true → lbody.leverage = some lev → lbody.margin_type = none →
       api_set_leverage env store h lbody
         = if set_leverage env (lbody.symbol.getD "") lev true then
             LeverageResponse.ok ("Leverage set to " ++ toString lev ++ "x (" ++ "cross" ++ ")")
               (lbody.symbol.getD "") lev "cross"
           else
             LeverageResponse.error "Failed to set leverage" (lbody.symbol.getD "") lev) := by
  refine ⟨?_, ?_, ?_⟩
  · unfold api_place_order
    rw [hfind]
    dsimp only
    rw [if_pos hst]
  · unfold api_close_position
    rw [hfind]
    dsimp only
    rw [if_pos hst]
  · intro hsym hlev hmt
    unfold api_set_leverage
    rw [hfind]
    dsimp only
    rw [hlev, hmt]
    simp [hsym]

/-- Witness for the amended C7 statement at a concrete closed agent. -/
theorem trading_status_gate_witness :
    api_place_order benignEnv [agentClosed] "k3" {}
      = PlaceOrderResponse.httpError 400 "Agent is closed, not active. Cannot trade." ∧
    api_close_position benignEnv [agentClosed] "k3" {}
      = Except.ok (ClosePositionResponse.httpError 400 "Agent is closed, not active.") := by
  have h := trading_status_gate benignEnv [agentClosed] "k3" agentClosed {} {} {} 0
    (by decide) (by decide)
  exact ⟨h.1, h.2.1⟩

/-- The order request `market_order` submits when the mid-price lookup
succeeds: side-offset mid price rounded to two decimals, immediate-or-
cancel. -/
lemma market_order_request (env : ExchangeEnv) (mids : List (String × ℚ))
    (symbol side : String) (size slippage m : ℚ)
    (hm : env.all_mids = Except.ok mids) (hl : lookupMid mids symbol = some m) :
    (market_order env symbol side size slippage).2
      = some ⟨symbol, side == "buy", size,
          round2 (if side == "buy" then m * (1 + slippage) else m * (1 - slippage)),
          "Ioc", false⟩ := by
  unfold market_order
  rw [hm]
  dsimp only
  rw [hl]
  dsimp only
  split
  · rfl
  · rfl
  · split <;> rfl

/-- C9 counterexample: with a mid price of 0.333 and 5% tolerance, the
buy limit price submitted to the exchange is 0.35 — the rounded value —
which differs from mid × (1 + tol) = 0.34965. -/
theorem market_order_rounding_cex :
    (market_order envMidBTC "BTC" "buy" 1 (5/100)).2
      = some ⟨"BTC", true, 1, 7/20, "Ioc", false⟩ ∧
    (7 : ℚ)/20 ≠ 333/1000 * (1 + 5/100) := by
  constructor
  · rw [market_order_request envMidBTC [("BTC", 333/1000)] "BTC" "buy" 1 (5/100)
      (333/1000) rfl rfl]
    have hq : (((333 : ℚ)/1000) * (1 + 5/100)) * 100 = 6993/200 := by norm_num
    have hf : ⌊(6993 : ℚ)/200⌋ = 34 := by
      rw [Int.floor_eq_iff]
      norm_num
    have hr : round2 (((333 : ℚ)/1000) * (1 + 5/100)) = 7/20 := by
      unfold round2 roundHalfToEven
      rw [hq, hf]
      norm_num
    simp [hr]
  · norm_num

/-- C9 (amended): for a market order whose mid-price lookup returns m,
the order submitted to the exchange is immediate-or-cancel at the limit
price `round(m*(1+tol), 2)` for a buy and `round(m*(1-tol), 2)` for a
sell — the slippage-offset mid price rounded to two decimal places, not
the exact offset price. -/
theorem market_order_slippage_price (env : ExchangeEnv) (mids : List (String × ℚ))
    (symbol side : String) (size slippage m : ℚ)
    (hm : env.all_mids = Except.ok mids) (hl : lookupMid mids symbol = some m) :
    (market_order env symbol side size slippage).2
      = some ⟨symbol, side == "buy", size,
          round2 (if side == "buy" then m * (1 + slippage) else m * (1 - slippage)),
          "Ioc", false⟩ :=
  market_order_request env mids symbol side size slippage m hm hl

/-- Witness for the amended C9 statement at a concrete sell order. -/
theorem market_order_slippage_price_witness :
    (market_order envMidBTC "BTC" "sell" 2 (1/10)).2
      = some ⟨"BTC", "sell" == "buy", 2,
          round2 (if "sell" == "buy" then (333 : ℚ)/1000 * (1 + 1/10)
                  else (333 : ℚ)/1000 * (1 - 1/10)),
          "Ioc", false⟩ :=
  market_order_slippage_price envMidBTC [("BTC", 333/1000)] "BTC" "sell" 2 (1/10)
    (333/1000) rfl rfl

/-- C2 counterexample: on an active (not-yet-closed) agent, when the
open-orders fetch of step 2 raises, the close-account execution aborts
with a propagated exception and performs zero ledger writes — not exactly
one — leaving the agent unclosed. -/
theorem close_account_abort_cex :
    agentActive.status = "active" ∧
    (api_close_account envOpenOrdersFault [agentActive] "k1" 0).response
        = Except.error "boom" ∧
    (api_close_account envOpenOrdersFault [agentActive] "k1" 0).writes = [] ∧
    (api_close_account envOpenOrdersFault [agentActive] "k1" 0).store = [agentActive] := by
  refine ⟨rfl, ?_, ?_, ?_⟩ <;> decide

/-- C2 (amended): on a not-yet-closed agent, provided the exchange info
fetches succeed (user state and open orders — order placement and
cancellation failures are contained and recorded), the execution performs
exactly one ledger write, setting status "closed" together with
final_equity, final_pnl, final_pnl_pct and closed_at; the outcome is
"partial" carrying the per-symbol error list iff at least one
position-close failed and "ok" otherwise, and both outcomes report the
final balance and final P&L; if an info fetch raises instead, the request
aborts with no ledger write. -/
theorem close_account_single_write (env : ExchangeEnv) (store : AgentStore) (h : String)
    (now : Nat) (agent : Agent) (us : RawUserState) (os : List RawOrder)
    (hfind : get_agent_by_api_key_hash store h = some agent)
    (hst : agent.status ≠ "closed")
    (hus : env.user_state = Except.ok us)
    (hoo : env.open_orders = Except.ok os) :
    ∃ r patch,
      (api_close_account env store h now).response
          = Except.ok (CloseAccountOutcome.success r) ∧
      (api_close_account env store h now).writes = [⟨agent.id, "closed", patch⟩] ∧
      (api_close_account env store h now).store
          = update_agent_status store agent.id "closed" patch ∧
      patch.final_equity = some r.final_balance ∧
      patch.final_pnl = some r.final_pnl ∧
      patch.final_pnl_pct.isSome = true ∧
      patch.closed_at = some now ∧
      ((r.status = "partial" ∧ r.results.errors ≠ []) ∨
       (r.status = "ok" ∧ r.results.errors = [])) := by
  obtain ⟨pc, errs, n, hstep, heq⟩ :=
    close_account_run env store h now agent us os hfind hst hus hoo
  refine ⟨{ status := if errs.isEmpty then "ok" else "partial"
            message := if errs.isEmpty then "Account closed successfully"
                       else "Account closed with some errors"
            final_balance := us.accountValue
            final_pnl := us.accountValue -
              (if agent.deposit_amount = 0 then 0 else agent.deposit_amount)
            results := ⟨pc, n, some ⟨agent.withdrawal_address, us.accountValue,
                us.withdrawable, "Manual withdrawal may be required via Hyperliquid UI"⟩,
              errs⟩ },
          closurePatch agent us now, ?_, ?_, ?_, rfl, rfl, rfl, rfl, ?_⟩
  · rw [heq]
  · rw [heq]
  · rw [heq]
  · by_cases he : errs.isEmpty
    · right
      constructor
      · simp [he]
      · exact List.isEmpty_iff.mp he
    · left
      constructor
      · simp [he]
      · intro hc
        exact he (List.isEmpty_iff.mpr hc)

/-- Witness for the amended C2 statement at a concrete active agent with a
benign exchange. -/
theorem close_account_single_write_witness :
    ∃ r patch,
      (api_close_account benignEnv [agentActive] "k1" 3).response
          = Except.ok (CloseAccountOutcome.success r) ∧
      (api_close_account benignEnv [agentActive] "k1" 3).writes
          = [⟨agentActive.id, "closed", patch⟩] ∧
      (api_close_account benignEnv [agentActive] "k1" 3).store
          = update_agent_status [agentActive] agentActive.id "closed" patch ∧
      patch.final_equity = some r.final_balance ∧
      patch.final_pnl = some r.final_pnl ∧
      patch.final_pnl_pct.isSome = true ∧
      patch.closed_at = some 3 ∧
      ((r.status = "partial" ∧ r.results.errors ≠ []) ∨
       (r.status = "ok" ∧ r.results.errors = [])) :=
  close_account_single_write benignEnv [agentActive] "k1" 3 agentActive benignUserState []
    (by decide) (by decide) rfl rfl

/-- C3: in every close-account execution that reaches the recording step,
the recorded final P&L is exactly the fetched account value minus the
deposit amount of the agent, and the recorded percentage is
final_pnl / deposit_amount × 100, guarded to 0 when the deposit amount is
0 (deposits are non-negative by the registration bounds). -/
theorem close_account_final_pnl (env : ExchangeEnv) (store : AgentStore) (h : String)
    (now : Nat) (agent : Agent) (us : RawUserState) (os : List RawOrder)
    (hfind : get_agent_by_api_key_hash store h = some agent)
    (hst : agent.status ≠ "closed")
    (hus : env.user_state = Except.ok us)
    (hoo : env.open_orders = Except.ok os)
    (hdep : 0 ≤ agent.deposit_amount) :
    ∃ r patch,
      (api_close_account env store h now).response
          = Except.ok (CloseAccountOutcome.success r) ∧
      (api_close_account env store h now).writes = [⟨agent.id, "closed", patch⟩] ∧
      r.final_balance = us.accountValue ∧
      r.final_pnl = us.accountValue - agent.deposit_amount ∧
      patch.final_equity = some us.accountValue ∧
      patch.final_pnl = some (us.accountValue - agent.deposit_amount) ∧
      patch.final_pnl_pct = some (if agent.deposit_amount = 0 then 0
        else (us.accountValue - agent.deposit_amount) / agent.deposit_amount * 100) := by
  obtain ⟨pc, errs, n, hstep, heq⟩ :=
    close_account_run env store h now agent us os hfind hst hus hoo
  have hd : (if agent.deposit_amount = 0 then 0 else agent.deposit_amount)
      = agent.deposit_amount := by
    by_cases h0 : agent.deposit_amount = 0
    · rw [if_pos h0, h0]
    · rw [if_neg h0]
  have hpct : (if 0 < (if agent.deposit_amount = 0 then 0 else agent.deposit_amount) then
        (us.accountValue - (if agent.deposit_amount = 0 then 0 else agent.deposit_amount))
          / (if agent.deposit_amount = 0 then 0 else agent.deposit_amount) * 100
      else 0)
      = (if agent.deposit_amount = 0 then 0
         else (us.accountValue - agent.deposit_amount) / agent.deposit_amount * 100) := by
    rw [hd]
    by_cases h0 : agent.deposit_amount = 0
    · rw [if_pos h0, h0]
      simp
    · have hlt : 0 < agent.deposit_amount := lt_of_le_of_ne hdep (Ne.symm h0)
      rw [if_pos hlt, if_neg h0]
  refine ⟨{ status := if errs.isEmpty then "ok" else "partial"
            message := if errs.isEmpty then "Account closed successfully"
                       else "Account closed with some errors"
            final_balance := us.accountValue
            final_pnl := us.accountValue -
              (if agent.deposit_amount = 0 then 0 else agent.deposit_amount)
            results := ⟨pc, n, some ⟨agent.withdrawal_address, us.accountValue,
                us.withdrawable, "Manual withdrawal may be required via Hyperliquid UI"⟩,
              errs⟩ },
          closurePatch agent us now, ?_, ?_, rfl, ?_, rfl, ?_, ?_⟩
  · rw [heq]
  · rw [heq]
  · show us.accountValue - (if agent.deposit_amount = 0 then 0 else agent.deposit_amount)
        = us.accountValue - agent.deposit_amount
    rw [hd]
  · show some (us.accountValue - (if agent.deposit_amount = 0 then 0 else agent.deposit_amount))
        = some (us.accountValue - agent.deposit_amount)
    rw [hd]
  · show some (if 0 < (if agent.deposit_amount = 0 then 0 else agent.deposit_amount) then
          (us.accountValue - (if agent.deposit_amount = 0 then 0 else agent.deposit_amount))
            / (if agent.deposit_amount = 0 then 0 else agent.deposit_amount) * 100
        else 0) = _
    rw [hpct]

/-- Witness for C3 at a concrete active agent with deposit 50 and account
value 100. -/
theorem close_account_final_pnl_witness :
    ∃ r patch,
      (api_close_account benignEnv [agentActive] "k1" 4).response
          = Except.ok (CloseAccountOutcome.success r) ∧
      (api_close_account benignEnv [agentActive] "k1" 4).writes
          = [⟨agentActive.id, "closed", patch⟩] ∧
      r.final_balance = benignUserState.accountValue ∧
      r.final_pnl = benignUserState.accountValue - agentActive.deposit_amount ∧
      patch.final_equity = some benignUserState.accountValue ∧
      patch.final_pnl = some (benignUserState.accountValue - agentActive.deposit_amount) ∧
      patch.final_pnl_pct = some (if agentActive.deposit_amount = 0 then 0
        else (benignUserState.accountValue - agentActive.deposit_amount)
          / agentActive.deposit_amount * 100) :=
  close_account_final_pnl benignEnv [agentActive] "k1" 4 agentActive benignUserState []
    (by decide) (by decide) rfl rfl (by norm_num [agentActive])

end Robinclaw
